import Mathlib

/-!
Shallow embedding of the session-store / output-parsing core of
`backend/app/main.py` (AI Teaching Assistant backend), together with
theorems checking the claims of the specification about it.

Python strings are modelled as `String` (processed through their
character lists), Python `dict` stores as association lists, and the
external OpenAI call as an explicit outcome parameter.
-/

set_option autoImplicit false

namespace AIAgent

abbrev Chars := List Char

/-- Python whitespace characters stripped by `str.strip()` (ASCII range). -/
def pyIsSpace (c : Char) : Bool :=
  c = ' ' || c = '\t' || c = '\n' || c = '\x0d' || c = '\x0b' || c = '\x0c'

/-- `str.strip()` on a character list: drop whitespace from both ends. -/
def stripL (l : Chars) : Chars :=
  ((l.dropWhile pyIsSpace).reverse.dropWhile pyIsSpace).reverse

/-- `str.strip()` on strings. -/
def pyStrip (s : String) : String := String.mk (stripL s.data)

/-- `str.lower()` (ASCII). -/
def lowerL (l : Chars) : Chars := l.map Char.toLower

/-- `str.split(sep)` for a single-character separator: splits at every
occurrence, keeping empty pieces, as Python does. -/
def splitOnChar (sep : Char) : Chars → List Chars
  | [] => [[]]
  | c :: rest =>
    if c = sep then [] :: splitOnChar sep rest
    else
      match splitOnChar sep rest with
      | [] => [[c]]
      | h :: t => (c :: h) :: t

/-- `str.splitlines()` restricted to `\n` boundaries: like splitting on
`\n` but with no empty piece after a trailing newline. -/
def pySplitlines (l : Chars) : List Chars :=
  let parts := splitOnChar '\n' l
  if parts.getLast? = some [] then parts.dropLast else parts

/-- Fuel-driven worker for `str.split(sep)` with a multi-character
separator.  The fuel only serves to make the recursion structural; it is
always called with more fuel than characters, so the fuel-exhausted
branch is unreachable for a non-empty separator. -/
def pySplitFuel (sep : Chars) : Nat → Chars → Chars → List Chars
  | 0, l, acc => [acc.reverse ++ l]
  | _ + 1, [], acc => [acc.reverse]
  | fuel + 1, c :: rest, acc =>
    if sep.isPrefixOf (c :: rest) then
      acc.reverse :: pySplitFuel sep fuel (rest.drop (sep.length - 1)) []
    else
      pySplitFuel sep fuel rest (c :: acc)

/-- `text.split(sep)` for a non-empty separator, Python semantics
(left-to-right, non-overlapping, keeps empty pieces). -/
def pySplit (sep : Chars) (l : Chars) : List Chars :=
  pySplitFuel sep (l.length + 1) l []

/-- `str.lstrip(chars)`: remove every leading character contained in the
given set. -/
def pyLstrip (chars : Chars) (l : Chars) : Chars :=
  l.dropWhile (chars.contains ·)

/-- `sub in s` (Python substring test): some suffix of `l` starts with
`sub`. -/
def pyContains : Chars → Chars → Bool
  | [], sub => sub.isEmpty
  | c :: rest, sub => sub.isPrefixOf (c :: rest) || pyContains rest sub

/-- `sep.join(parts)` for a single-character separator. -/
def joinSep (c : Char) : List Chars → Chars
  | [] => []
  | [x] => x
  | x :: xs => x ++ c :: joinSep c xs

/-- `next((i for i, x in enumerate(l) if p x), None)`: index of the first
element satisfying `p`. -/
def firstIdx {α : Type} (p : α → Bool) : List α → Option Nat
  | [] => none
  | x :: xs => if p x then some 0 else (firstIdx p xs).map (· + 1)

/-! ## Data model (`main.py` lines 24-56, 85-86) -/

/-- One conversation turn: a `{"role": ..., "content": ...}` dict. -/
structure Msg where
  role : String
  content : String
  deriving DecidableEq

/-- The in-memory session store `SESSIONS: Dict[str, Dict]`; each session
value holds only its `"history"` list, so it is modelled directly as the
history.  Python dicts preserve insertion order, hence an association
list with insertion at the end. -/
abbrev Store := List (String × List Msg)

def storeFind : Store → String → Option (List Msg)
  | [], _ => none
  | (k, v) :: rest, key => if k = key then some v else storeFind rest key

def storeMem (store : Store) (key : String) : Bool :=
  (storeFind store key).isSome

/-- `SESSIONS[key] = {"history": v}`: overwrite in place if present,
otherwise insert at the end. -/
def storeSet : Store → String → List Msg → Store
  | [], key, v => [(key, v)]
  | (k, h) :: rest, key, v =>
    if k = key then (key, v) :: rest else (k, h) :: storeSet rest key v

/-- `SESSIONS[key]["history"].append(m)`.  The key is always present at
the call sites (guaranteed by `get_or_create_session`); an absent key is
left as a no-op. -/
def storeAppend : Store → String → Msg → Store
  | [], _, _ => []
  | (k, h) :: rest, key, m =>
    if k = key then (k, h ++ [m]) :: rest else (k, h) :: storeAppend rest key m

/-- Python truthiness of `Optional[str]`: `None` and `""` are falsy. -/
def optTruthy : Option String → Bool
  | none => false
  | some s => !s.isEmpty

/-! ## Session store operations (`main.py` lines 94-99) -/

/-- `get_or_create_session(session_id)`.  The global `SESSIONS` dict is
threaded explicitly; `str(uuid.uuid4())` is the `fresh` parameter
(assumed collision-free where a theorem needs it). -/
def get_or_create_session (fresh : String) (store : Store)
    (session_id : Option String) : String × Store :=
  if optTruthy session_id ∧ storeMem store (session_id.getD "") then
    (session_id.getD "", store)
  else
    let new_id := if optTruthy session_id then session_id.getD "" else fresh
    (new_id, storeSet store new_id [])

/-! ## Output parser (`main.py` lines 154-187) -/

def step_default : String := "Let\x27s continue learning..."
def checkpoint_default : String := "Checkpoint: What is one key idea here?"
def recap_default : String := "Recap: Quick recap: key idea in one line."

/-- Line normalisation of `split_lesson_output`:
strip the whole text, split on newline, strip each line, keep the
non-empty ones. -/
def linesOf (text : String) : List Chars :=
  ((splitOnChar '\n' (stripL text.data)).map stripL).filter (· ≠ [])

/-- Marker test: the lowercased line starts with "checkpoint:". -/
def isCkpt (l : Chars) : Bool := "checkpoint:".data.isPrefixOf (lowerL l)

/-- Marker test: the lowercased line starts with "recap:". -/
def isRecap (l : Chars) : Bool := "recap:".data.isPrefixOf (lowerL l)

/-- `next((i for ...), -1)`: first matching index, `-1` when absent. -/
def idxOf (p : Chars → Bool) (lines : List Chars) : Int :=
  match firstIdx p lines with
  | some i => (i : Int)
  | none => -1

/-- `step_end = min(i for i in (checkpoint_idx, recap_idx, len(lines)) if i != -1)`
followed by the step extraction and the empty-step default
(`main.py` lines 170-171, 182-185). -/
def step_of (lines : List Chars) : String :=
  let step_end :=
    (([idxOf isCkpt lines, idxOf isRecap lines, (lines.length : Int)].filter
        (· ≠ -1)).min?).getD 0
  let step_lines := if step_end > 0 then lines.take step_end.toNat else lines
  let step_part := stripL (joinSep '\n' step_lines)
  if step_part = [] then step_default else String.mk step_part

/-- Checkpoint extraction (`main.py` lines 173-176). -/
def checkpoint_of (lines : List Chars) : String :=
  let checkpoint_idx := idxOf isCkpt lines
  let recap_idx := idxOf isRecap lines
  if checkpoint_idx ≠ -1 then
    let checkpoint_end :=
      if recap_idx > checkpoint_idx then recap_idx else (lines.length : Int)
    String.mk (joinSep ' '
      ((lines.drop checkpoint_idx.toNat).take (checkpoint_end - checkpoint_idx).toNat))
  else checkpoint_default

/-- Recap extraction (`main.py` lines 178-180). -/
def recap_of (lines : List Chars) : String :=
  let recap_idx := idxOf isRecap lines
  if recap_idx ≠ -1 then String.mk (joinSep ' ' (lines.drop recap_idx.toNat))
  else recap_default

/-- `split_lesson_output(text)`: split raw lesson text into
`(step, checkpoint, recap)`. -/
def split_lesson_output (text : String) : String × String × String :=
  let lines := linesOf text
  (step_of lines, checkpoint_of lines, recap_of lines)

example : split_lesson_output "" =
    (step_default, checkpoint_default, recap_default) := by decide

example : split_lesson_output "Intro text\nCheckpoint: What now?" =
    ("Intro text", "Checkpoint: What now?", recap_default) := by decide

example : split_lesson_output "Checkpoint: Q1\nRecap: R1" =
    ("Checkpoint: Q1\nRecap: R1", "Checkpoint: Q1", "Recap: R1") := by decide

/-! ## Requests and responses (`main.py` lines 24-56) -/

structure LessonStepRequest where
  subject : String
  topic : String
  level : String := "beginner"
  session_id : Option String := none
  last_answer : Option String := none
  confusion : Bool := false
  misconceptions : Option (List String) := none
  deriving DecidableEq

structure LessonStepResponse where
  session_id : String
  step : String
  checkpoint_question : String
  recap : String
  deriving DecidableEq

structure PracticeRequest where
  subject : String
  topic : String
  level : String := "beginner"
  session_id : Option String := none
  deriving DecidableEq

structure PracticeItem where
  question : String
  kind : String := "concept"
  answer : Option String := none
  deriving DecidableEq

structure PracticeResponse where
  session_id : String
  practice : List PracticeItem
  deriving DecidableEq

/-! ## Prompt assembly (`main.py` lines 59-83, 102-114) -/

def SYSTEM_PROMPT : String :=
  "You are an AI Teaching Assistant focused on making complex concepts easy to understand.\n\nTeaching Approach:\n1. Start with a simple, real-world example that illustrates the concept\n2. Explain the core idea in plain language\n3. Break down the concept into small, digestible steps\n4. Use analogies related to everyday life\n5. Provide a clear, practical example\n6. End with a simple question to check understanding\n\nExample Format:\n[Real-world example]\n[Simple explanation]\n[Step-by-step breakdown]\n[Practical application]\n[Checkpoint question]\n\nRules:\n- Use simple, conversational language\n- Keep explanations brief and to the point\n- Avoid technical jargon\n- Focus on understanding, not memorization\n- Adapt to the student\x27s level (beginner/intermediate)\n- If the student is confused, try a different example\n"

/-- `build_messages(req)`: system prompt, then the session history read
from the store, then the composed user note. -/
def build_messages (store : Store) (req : LessonStepRequest) : List Msg :=
  let history := match req.session_id with
    | some s => (storeFind store s).getD []
    | none => []
  let user_note :=
    "Subject: " ++ req.subject ++ ". Topic: " ++ req.topic ++ ". Level: " ++ req.level ++ "."
  let user_note := user_note ++
    (match req.misconceptions with
     | some ms =>
        if ms.isEmpty then ""
        else " Known misconceptions: " ++ String.intercalate ", " ms ++ "."
     | none => "")
  let user_note := user_note ++
    (match req.last_answer with
     | some a => if a.isEmpty then "" else " Learner previous answer: " ++ a ++ "."
     | none => "")
  let user_note := user_note ++
    (if req.confusion then " Learner is confused; re-explain with a different analogy." else "")
  ⟨"system", SYSTEM_PROMPT⟩ :: (history ++ [⟨"user", user_note⟩])

/-! ## Generation capability (`main.py` lines 88-91, 117-151) -/

/-- Outcome of the external OpenAI call: no credential configured
(`client is None`), the call raised, or it returned text. -/
inductive Gen where
  | offline
  | apiError (err : String)
  | ok (text : String)
  deriving DecidableEq

def practice_fallback : String :=
  "1) What is the main concept you learned?\n2) Can you give a real-world example?\n3) Try writing a simple code example.\n4) How would you explain this to a friend?\n5) What questions do you still have?"

def error_lesson_text : String :=
  "Let\x27s learn this concept step by step.\n\nStart with the basics - understanding the foundation is key.\n\nCheckpoint: What is one thing you understand so far?\n\nRecap: Building knowledge one step at a time."

def offline_lesson_text (subject topic : String) : String :=
  "Let\x27s start learning about " ++ topic ++ " in " ++ subject ++
  ".\n\nThink of it like learning to ride a bike - you start with the basics before moving to advanced tricks.\n\nCheckpoint: Can you explain what " ++
  topic ++ " means in your own words?\n\nRecap: We\x27re building understanding step by step."

/-- `str(message_dict)`: Python repr of the two-key dict.  The escaping
Python repr applies to quotes and backslashes inside the values is
omitted: it inserts only backslashes and therefore cannot create or
destroy an occurrence of the markers searched for. -/
def pyStrMsg (m : Msg) : String :=
  "\x7b\x27role\x27: \x27" ++ m.role ++ "\x27, \x27content\x27: \x27" ++ m.content ++ "\x27\x7d"

/-- `content.split(marker)[-1].split(".")[0].strip()`. -/
def extractField (marker content : Chars) : String :=
  String.mk (stripL ((pySplit ".".data ((pySplit marker content).getLastD [])).headD []))

/-- The offline lesson fallback computed from the last message
(`main.py` lines 123-131): subject and topic are scraped back out of the
final user note. -/
def offline_lesson_for (m : Msg) : String :=
  let subject :=
    if pyContains (pyStrMsg m).data "Subject:".data then
      extractField "Subject:".data m.content.data
    else "the topic"
  let topic :=
    if pyContains (pyStrMsg m).data "Topic:".data then
      extractField "Topic:".data m.content.data
    else "this concept"
  offline_lesson_text subject topic

/-- `call_model(messages, output_kind)`: returns the generated text, or a
purpose-appropriate fallback when the capability is offline or raised.
The only failing path is the unreachable-in-context `messages[-1]` access
on an empty message list. -/
def call_model (gen : Gen) (messages : List Msg) (output_kind : String) :
    Except String String :=
  match gen with
  | .offline =>
    if output_kind = "practice" then .ok practice_fallback
    else
      match messages.getLast? with
      | none => .error "IndexError: list index out of range"
      | some m => .ok (offline_lesson_for m)
  | .apiError _ =>
    if output_kind = "practice" then .ok practice_fallback else .ok error_lesson_text
  | .ok t => .ok t

/-! ## Lesson endpoint (`main.py` lines 190-231) -/

/-- `POST /lesson-step`.  The global `SESSIONS` is threaded as `store`;
`fresh` stands for `str(uuid.uuid4())`; an uncaught exception becomes the
HTTP 500 branch, modelled as `.error`. -/
def lesson_step (fresh : String) (gen : Gen) (store : Store)
    (req : LessonStepRequest) : Except String (Store × LessonStepResponse) :=
  let resolved := get_or_create_session fresh store req.session_id
  let session_id := resolved.1
  let store1 := resolved.2
  let req1 := { req with session_id := some session_id }
  let messages := build_messages store1 req1 ++
    [⟨"user", "Please provide a clear, step-by-step explanation with a real-world example."⟩]
  match call_model gen messages "lesson" with
  | .error e => .error ("Error in lesson_step: " ++ e)
  | .ok response =>
    let parts := split_lesson_output response
    let formatted_step := parts.1 ++ "\n\n" ++ parts.2.1 ++ "\n\n" ++ parts.2.2
    let store2 := storeAppend store1 session_id ⟨"assistant", response⟩
    .ok (store2, ⟨session_id, formatted_step, parts.2.1, parts.2.2⟩)

/-! ## Practice endpoint (`main.py` lines 234-273) -/

def numbering_chars : Chars := "0123456789). ".data

/-- Keyword classification of a practice line (`main.py` lines 258-262). -/
def classify_kind (cleaned : Chars) : String :=
  if pyContains (lowerL cleaned) "code".data then "code"
  else if pyContains (lowerL cleaned) "apply".data || pyContains (lowerL cleaned) "scenario".data then
    "applied"
  else "concept"

/-- The practice-formatter loop of `practice` (`main.py` lines 251-271):
split into non-empty trimmed lines, strip the leading numbering, classify,
and fall back to one default concept item when nothing remains. -/
def format_practice (raw : String) : List PracticeItem :=
  let items := (pySplitlines raw.data).filterMap (fun line =>
    let cleaned := stripL line
    if cleaned = [] then none
    else
      let cleaned := pyLstrip numbering_chars cleaned
      some ⟨String.mk cleaned, classify_kind cleaned, none⟩)
  if items.isEmpty then
    [⟨"Describe one key idea from the lesson in your own words.", "concept", none⟩]
  else items

/-- `POST /practice`. -/
def practice (fresh : String) (gen : Gen) (store : Store)
    (req : PracticeRequest) : Except String (Store × PracticeResponse) :=
  let resolved := get_or_create_session fresh store req.session_id
  let session_id := resolved.1
  let store1 := resolved.2
  let prompt :=
    "Create 5 practice questions for subject " ++ req.subject ++ ", topic " ++ req.topic ++
    ", level " ++ req.level ++ ". Mix conceptual, applied, and one small code or worked example. Return numbered items."
  let messages : List Msg := [⟨"system", SYSTEM_PROMPT⟩, ⟨"user", prompt⟩]
  match call_model gen messages "practice" with
  | .error e => .error e
  | .ok raw => .ok (store1, ⟨session_id, format_practice raw⟩)

example : format_practice "1) Explain X\n2) Apply X to Y\n3) Write code for X" =
    [⟨"Explain X", "concept", none⟩, ⟨"Apply X to Y", "applied", none⟩,
     ⟨"Write code for X", "code", none⟩] := by decide

example : format_practice "" =
    [⟨"Describe one key idea from the lesson in your own words.", "concept", none⟩] := by
  decide

example : format_practice "1) 42 is the answer\n2. 2048 game rules" =
    [⟨"is the answer", "concept", none⟩, ⟨"game rules", "concept", none⟩] := by decide

example :
    call_model .offline [⟨"user", "Subject: Java. Topic: Classes. Level: beginner."⟩] "lesson" =
    .ok (offline_lesson_text "Java" "Classes") := rfl

/-! ## Store lemmas -/

lemma storeFind_storeSet_self (store : Store) (k : String) (v : List Msg) :
    storeFind (storeSet store k v) k = some v := by
  induction store with
  | nil => simp [storeSet, storeFind]
  | cons e rest ih =>
    obtain ⟨k₀, h₀⟩ := e
    by_cases h : k₀ = k
    · simp [storeSet, storeFind, h]
    · simp [storeSet, storeFind, h, ih]

lemma storeFind_storeSet_ne (store : Store) (k key : String) (v : List Msg)
    (h : k ≠ key) : storeFind (storeSet store key v) k = storeFind store k := by
  induction store with
  | nil => simp [storeSet, storeFind, Ne.symm h]
  | cons e rest ih =>
    obtain ⟨k₀, h₀⟩ := e
    by_cases hk : k₀ = key
    · subst hk
      simp [storeSet, storeFind, Ne.symm h]
    · simp [storeSet, storeFind, hk, ih]

lemma storeFind_storeAppend_self (store : Store) (k : String) (m : Msg)
    (h : List Msg) (hfind : storeFind store k = some h) :
    storeFind (storeAppend store k m) k = some (h ++ [m]) := by
  induction store with
  | nil => simp [storeFind] at hfind
  | cons e rest ih =>
    obtain ⟨k₀, h₀⟩ := e
    by_cases hk : k₀ = k
    · subst hk
      simp [storeFind] at hfind
      simp [storeAppend, storeFind, hfind]
    · simp [storeFind, hk] at hfind
      simp [storeAppend, storeFind, hk, ih hfind]

lemma storeFind_storeAppend_grows (store : Store) (key : String) (m : Msg)
    (k : String) (h : List Msg) (hfind : storeFind store k = some h) :
    ∃ tail, storeFind (storeAppend store key m) k = some (h ++ tail) := by
  induction store with
  | nil => simp [storeFind] at hfind
  | cons e rest ih =>
    obtain ⟨k₀, h₀⟩ := e
    by_cases hk : k₀ = key
    · subst hk
      by_cases hkk : k₀ = k
      · subst hkk
        simp [storeFind] at hfind
        exact ⟨[m], by simp [storeAppend, storeFind, hfind]⟩
      · simp [storeFind, hkk] at hfind
        exact ⟨[], by simp [storeAppend, storeFind, hkk, hfind]⟩
    · by_cases hkk : k₀ = k
      · subst hkk
        simp [storeFind] at hfind
        exact ⟨[], by simp [storeAppend, storeFind, hk, hfind]⟩
      · simp [storeFind, hkk] at hfind
        obtain ⟨tail, htail⟩ := ih hfind
        exact ⟨tail, by simp [storeAppend, storeFind, hk, hkk, htail]⟩

/-! ## `get_or_create_session` lemmas -/

lemma isEmpty_false_of_ne (s : String) (h : s ≠ "") : s.isEmpty = false := by
  rcases he : s.isEmpty with _ | _
  · rfl
  · exact absurd ((String.isEmpty_iff s).mp he) h

lemma gocs_known (fresh : String) (store : Store) (sid : String)
    (hmem : storeMem store sid = true) (hne : sid ≠ "") :
    get_or_create_session fresh store (some sid) = (sid, store) := by
  simp [get_or_create_session, optTruthy, isEmpty_false_of_ne sid hne, hmem]

lemma gocs_unknown (fresh : String) (store : Store) (sid : String)
    (hmem : storeMem store sid = false) (hne : sid ≠ "") :
    get_or_create_session fresh store (some sid) = (sid, storeSet store sid []) := by
  simp [get_or_create_session, optTruthy, isEmpty_false_of_ne sid hne, hmem]

lemma gocs_none (fresh : String) (store : Store) :
    get_or_create_session fresh store none = (fresh, storeSet store fresh []) := by
  simp [get_or_create_session, optTruthy]

lemma gocs_empty (fresh : String) (store : Store) :
    get_or_create_session fresh store (some "") = (fresh, storeSet store fresh []) := by
  simp [get_or_create_session, optTruthy, String.isEmpty]

/-- The resolved session id is always present in the resulting store. -/
lemma gocs_find (fresh : String) (store : Store) (session_id : Option String) :
    ∃ h, storeFind (get_or_create_session fresh store session_id).2
      (get_or_create_session fresh store session_id).1 = some h := by
  unfold get_or_create_session
  split
  · rename_i hcond
    exact ⟨_, (Option.isSome_iff_exists.mp hcond.2).choose_spec⟩
  · exact ⟨[], storeFind_storeSet_self _ _ _⟩

/-! ## Parser lemmas -/

lemma mk_ne_empty {l : Chars} (h : l ≠ []) : String.mk l ≠ "" :=
  fun he => h (congrArg String.data he)

lemma joinSep_cons_ne_nil (c : Char) (x : Chars) (xs : List Chars) (hx : x ≠ []) :
    joinSep c (x :: xs) ≠ [] := by
  cases xs with
  | nil => simpa [joinSep] using hx
  | cons y ys =>
    cases x with
    | nil => exact absurd rfl hx
    | cons a as => simp [joinSep]

lemma firstIdx_spec {α : Type} (p : α → Bool) (l : List α) (i : Nat)
    (h : firstIdx p l = some i) :
    i < l.length ∧ ∃ x xs, l.drop i = x :: xs ∧ p x = true := by
  induction l generalizing i with
  | nil => simp [firstIdx] at h
  | cons a rest ih =>
    by_cases hp : p a
    · simp [firstIdx, hp] at h
      subst h
      exact ⟨by simp, a, rest, rfl, hp⟩
    · simp [firstIdx, hp] at h
      obtain ⟨j, hj, rfl⟩ := h
      obtain ⟨hlt, x, xs, hdrop, hx⟩ := ih j hj
      exact ⟨by simpa using hlt, x, xs, by simpa using hdrop, hx⟩

lemma ne_nil_of_isCkpt {l : Chars} (h : isCkpt l = true) : l ≠ [] :=
  fun he => absurd (he ▸ h) (by decide)

lemma ne_nil_of_isRecap {l : Chars} (h : isRecap l = true) : l ≠ [] :=
  fun he => absurd (he ▸ h) (by decide)

lemma idxOf_none {p : Chars → Bool} {lines : List Chars}
    (h : firstIdx p lines = none) : idxOf p lines = -1 := by
  simp [idxOf, h]

lemma idxOf_some {p : Chars → Bool} {lines : List Chars} {i : Nat}
    (h : firstIdx p lines = some i) : idxOf p lines = (i : Int) := by
  simp [idxOf, h]

lemma ite_mk_ne (l : Chars) : (if l = [] then step_default else String.mk l) ≠ "" := by
  split
  · decide
  · next h => exact mk_ne_empty h

lemma step_of_ne_empty (lines : List Chars) : step_of lines ≠ "" := by
  simp only [step_of]
  exact ite_mk_ne _

lemma take_join_ne (c : Char) (x : Chars) (xs : List Chars) (n : Nat)
    (hx : x ≠ []) (hn : 1 ≤ n) : joinSep c ((x :: xs).take n) ≠ [] := by
  obtain ⟨m, rfl⟩ : ∃ m, n = m + 1 := ⟨n - 1, by omega⟩
  rw [List.take_succ_cons]
  exact joinSep_cons_ne_nil c x _ hx

lemma checkpoint_of_ne_empty (lines : List Chars) : checkpoint_of lines ≠ "" := by
  simp only [checkpoint_of]
  cases hidx : firstIdx isCkpt lines with
  | none =>
    rw [idxOf_none hidx, if_neg (by decide)]
    decide
  | some i =>
    rw [idxOf_some hidx, if_pos (by omega)]
    obtain ⟨hlt, x, xs, hdrop, hx⟩ := firstIdx_spec isCkpt lines i hidx
    rw [Int.toNat_ofNat, hdrop]
    apply mk_ne_empty
    apply take_join_ne _ _ _ _ (ne_nil_of_isCkpt hx)
    split <;> omega

lemma recap_of_ne_empty (lines : List Chars) : recap_of lines ≠ "" := by
  simp only [recap_of]
  cases hidx : firstIdx isRecap lines with
  | none =>
    rw [idxOf_none hidx, if_neg (by decide)]
    decide
  | some i =>
    rw [idxOf_some hidx, if_pos (by omega)]
    obtain ⟨hlt, x, xs, hdrop, hx⟩ := firstIdx_spec isRecap lines i hidx
    rw [Int.toNat_ofNat, hdrop]
    exact mk_ne_empty (joinSep_cons_ne_nil _ _ _ (ne_nil_of_isRecap hx))

/-! ## Endpoint lemmas -/

lemma lesson_step_ok {fresh : String} {gen : Gen} {store : Store}
    {req : LessonStepRequest} {store' : Store} {resp : LessonStepResponse}
    (h : lesson_step fresh gen store req = .ok (store', resp)) :
    ∃ response,
      resp.session_id = (get_or_create_session fresh store req.session_id).1 ∧
      store' = storeAppend (get_or_create_session fresh store req.session_id).2
        resp.session_id ⟨"assistant", response⟩ := by
  simp only [lesson_step] at h
  split at h
  · exact absurd h (by simp)
  · next response heq =>
    rw [Except.ok.injEq, Prod.mk.injEq] at h
    obtain ⟨h1, h2⟩ := h
    subst h1
    subst h2
    exact ⟨response, rfl, rfl⟩

lemma practice_ok {fresh : String} {gen : Gen} {store : Store}
    {req : PracticeRequest} {store' : Store} {resp : PracticeResponse}
    (h : practice fresh gen store req = .ok (store', resp)) :
    resp.session_id = (get_or_create_session fresh store req.session_id).1 ∧
    store' = (get_or_create_session fresh store req.session_id).2 := by
  simp only [practice] at h
  split at h
  · exact absurd h (by simp)
  · next raw heq =>
    rw [Except.ok.injEq, Prod.mk.injEq] at h
    obtain ⟨h1, h2⟩ := h
    subst h1
    subst h2
    exact ⟨rfl, rfl⟩

/-- Creating or resolving a session never disturbs an existing entry,
provided the minted identifier is genuinely fresh. -/
lemma gocs_preserves (fresh : String) (store : Store) (session_id : Option String)
    (k : String) (h : List Msg)
    (hfresh : storeMem store fresh = false)
    (hf : storeFind store k = some h) :
    storeFind (get_or_create_session fresh store session_id).2 k = some h := by
  unfold get_or_create_session
  by_cases hcond : optTruthy session_id = true ∧ storeMem store (session_id.getD "") = true
  · rw [if_pos hcond]
    exact hf
  · rw [if_neg hcond]
    show storeFind
      (storeSet store (if optTruthy session_id then session_id.getD "" else fresh) []) k =
      some h
    by_cases ht : optTruthy session_id = true
    · rw [if_pos ht]
      have hne : k ≠ session_id.getD "" := by
        intro he
        exact hcond ⟨ht, by rw [← he]; simp [storeMem, hf]⟩
      rw [storeFind_storeSet_ne store k _ [] hne]
      exact hf
    · rw [if_neg ht]
      have hne : k ≠ fresh := by
        intro he
        rw [← he] at hfresh
        simp [storeMem, hf] at hfresh
      rw [storeFind_storeSet_ne store k fresh [] hne]
      exact hf

/-! ## Claims -/

/-- Claim C1, counterexample: calling `get_or_create_session` with the
unknown supplied identifier `"abc"` returns `"abc"` itself — not a fresh
minted identifier distinct from the supplied one — and files the empty
transcript under `"abc"`. -/
theorem C1_counterexample :
    get_or_create_session "11111111-2222-3333-4444-555555555555" [] (some "abc") =
      ("abc", [("abc", [])]) := by decide

/-- Claim C1 as amended: a fresh identifier is minted only when the
supplied identifier is absent (`None`) or empty; a supplied-but-unknown
identifier is adopted as-is, with an empty transcript created under it,
and returned unchanged. -/
theorem C1_amended_unknown_id (store : Store) (sid fresh : String)
    (hmem : storeMem store sid = false) (hne : sid ≠ "") :
    get_or_create_session fresh store (some sid) = (sid, storeSet store sid []) ∧
    get_or_create_session fresh store none = (fresh, storeSet store fresh []) ∧
    get_or_create_session fresh store (some "") = (fresh, storeSet store fresh []) :=
  ⟨gocs_unknown fresh store sid hmem hne, gocs_none fresh store, gocs_empty fresh store⟩

/-- Claim C1 witness: the amended statement instantiated on a concrete
store and identifier. -/
theorem C1_witness :
    storeMem [("x", [])] "abc" = false ∧ ("abc" : String) ≠ "" ∧
    get_or_create_session "u-1" [("x", [])] (some "abc") =
      ("abc", storeSet [("x", [])] "abc" []) :=
  ⟨by decide, by decide,
    (C1_amended_unknown_id [("x", [])] "abc" "u-1" (by decide) (by decide)).1⟩

/-- Claim C2, code-bug exhibit: on input whose first line is already a
marker, the step segment is not the lines before the first marker (there
are none, so the default sentence should be substituted); instead the
code falls back to taking all lines, markers included. -/
theorem C2_failing_input_eval :
    split_lesson_output "Checkpoint: Q1\nRecap: R1" =
      ("Checkpoint: Q1\nRecap: R1", "Checkpoint: Q1", "Recap: R1") ∧
    (split_lesson_output "Checkpoint: Q1\nRecap: R1").1 ≠ step_default := by decide

/-- Claim C3: `split_lesson_output` is total and always returns three
non-empty strings; on the empty string it returns the three defaults. -/
theorem C3_parser_total_nonempty :
    (∀ s : String,
      (split_lesson_output s).1 ≠ "" ∧ (split_lesson_output s).2.1 ≠ "" ∧
      (split_lesson_output s).2.2 ≠ "") ∧
    split_lesson_output "" = (step_default, checkpoint_default, recap_default) := by
  refine ⟨fun s => ?_, by decide⟩
  rw [show split_lesson_output s =
    (step_of (linesOf s), checkpoint_of (linesOf s), recap_of (linesOf s)) from rfl]
  exact ⟨step_of_ne_empty _, checkpoint_of_ne_empty _, recap_of_ne_empty _⟩

lemma split_snd (s : String) :
    (split_lesson_output s).2.1 = checkpoint_of (linesOf s) := rfl

lemma split_thd (s : String) :
    (split_lesson_output s).2.2 = recap_of (linesOf s) := rfl

/-- Formalisation of the description in claim C5 of where the
checkpoint segment ends: the recap marker line if it comes after the checkpoint marker,
otherwise the end of text. -/
def spec_checkpoint_end (lines : List Chars) (ci : Nat) : Nat :=
  match firstIdx isRecap lines with
  | some ri => if ci < ri then ri else lines.length
  | none => lines.length

/-- Formalisation of the description in claim C5 of the checkpoint
segment:
from the checkpoint marker line (inclusive) up to its end. -/
def spec_checkpoint (lines : List Chars) (ci : Nat) : String :=
  String.mk (joinSep ' ' ((lines.drop ci).take (spec_checkpoint_end lines ci - ci)))

/-- Formalisation of the description in claim C5 of the recap
segment: from
the recap marker line (inclusive) to the end of text, or the default. -/
def spec_recap (lines : List Chars) : String :=
  match firstIdx isRecap lines with
  | some ri => String.mk (joinSep ' ' (lines.drop ri))
  | none => recap_default

/-- Claim C5: when a checkpoint marker is present, the checkpoint segment
runs from the marker line up to (but excluding) a later recap marker line
or else to the end of text; the recap segment runs from the recap marker
line to the end, with the default substituted when absent; includes the
concrete example from the spec. -/
theorem C5_checkpoint_recap_segments (text : String) (ci : Nat)
    (hc : firstIdx isCkpt (linesOf text) = some ci) :
    (split_lesson_output text).2.1 = spec_checkpoint (linesOf text) ci ∧
    (split_lesson_output text).2.2 = spec_recap (linesOf text) ∧
    split_lesson_output "Intro text\nCheckpoint: What now?" =
      ("Intro text", "Checkpoint: What now?", recap_default) := by
  obtain ⟨hlt, -⟩ := firstIdx_spec isCkpt (linesOf text) ci hc
  refine ⟨?_, ?_, by decide⟩
  · rw [split_snd]
    simp only [checkpoint_of, spec_checkpoint, spec_checkpoint_end, idxOf_some hc]
    rw [if_pos (by omega : ¬((ci : Int) = -1))]
    cases hr : firstIdx isRecap (linesOf text) with
    | none =>
      simp only [idxOf_none hr]
      rw [if_neg (by omega : ¬((-1 : Int) > (ci : Int))), Int.toNat_ofNat,
        show (((linesOf text).length : Int) - (ci : Int)).toNat =
          (linesOf text).length - ci from by omega]
    | some ri =>
      simp only [idxOf_some hr]
      by_cases hcr : ci < ri
      · rw [if_pos (by omega : ((ri : Int) > (ci : Int))), Int.toNat_ofNat,
          show ((ri : Int) - (ci : Int)).toNat = ri - ci from by omega, if_pos hcr]
      · rw [if_neg (by omega : ¬((ri : Int) > (ci : Int))), Int.toNat_ofNat,
          show (((linesOf text).length : Int) - (ci : Int)).toNat =
            (linesOf text).length - ci from by omega, if_neg hcr]
  · rw [split_thd]
    simp only [recap_of, spec_recap]
    cases hr : firstIdx isRecap (linesOf text) with
    | none =>
      simp only [idxOf_none hr]
      rw [if_neg (by omega : ¬¬((-1 : Int) = -1))]
    | some ri =>
      simp only [idxOf_some hr]
      rw [if_pos (by omega : ¬((ri : Int) = -1)), Int.toNat_ofNat]

/-- Claim C5 witness: the segment description instantiated on the
concrete example from the spec, whose checkpoint marker is on line 1. -/
theorem C5_witness :
    firstIdx isCkpt (linesOf "Intro text\nCheckpoint: What now?") = some 1 ∧
    (split_lesson_output "Intro text\nCheckpoint: What now?").2.1 =
      spec_checkpoint (linesOf "Intro text\nCheckpoint: What now?") 1 :=
  ⟨by decide,
    (C5_checkpoint_recap_segments "Intro text\nCheckpoint: What now?" 1 (by decide)).1⟩

/-- Claim C7: the practice formatter never returns an empty sequence; the
three-line numbered input yields kinds concept/applied/code with the
numbering stripped, and the empty input yields the single default concept
item. -/
theorem C7_formatter_never_empty :
    (∀ raw : String, format_practice raw ≠ []) ∧
    format_practice "1) Explain X\n2) Apply X to Y\n3) Write code for X" =
      [⟨"Explain X", "concept", none⟩, ⟨"Apply X to Y", "applied", none⟩,
       ⟨"Write code for X", "code", none⟩] ∧
    format_practice "" =
      [⟨"Describe one key idea from the lesson in your own words.", "concept", none⟩] := by
  refine ⟨fun raw => ?_, by decide, by decide⟩
  simp only [format_practice]
  split
  · simp
  · next h => exact fun hnil => h (by simp [hnil])

/-- Claim C9: `get_or_create_session` is idempotent on a known non-empty
identifier — both consecutive calls return the same identifier and leave
the store (hence the transcript and the key set) unchanged. -/
theorem C9_idempotent_known_id (store : Store) (sid fresh₁ fresh₂ : String)
    (hmem : storeMem store sid = true) (hne : sid ≠ "") :
    get_or_create_session fresh₁ store (some sid) = (sid, store) ∧
    get_or_create_session fresh₂ (get_or_create_session fresh₁ store (some sid)).2
      (some (get_or_create_session fresh₁ store (some sid)).1) = (sid, store) := by
  have h1 := gocs_known fresh₁ store sid hmem hne
  refine ⟨h1, ?_⟩
  rw [h1]
  exact gocs_known fresh₂ store sid hmem hne

/-- Claim C9 witness: idempotence instantiated on a concrete store. -/
theorem C9_witness :
    storeMem [("abc", [])] "abc" = true ∧ ("abc" : String) ≠ "" ∧
    get_or_create_session "u1" [("abc", [])] (some "abc") = ("abc", [("abc", [])]) :=
  ⟨by decide, by decide,
    (C9_idempotent_known_id [("abc", [])] "abc" "u1" "u2" (by decide) (by decide)).1⟩

/-- Claim C6: whenever the generation capability is unavailable (offline)
or its call failed, `call_model` returns a deterministic fallback chosen
by the purpose (`practice` vs lesson) as a successful value — the failure
is never propagated as an error. -/
theorem C6_fallback_no_error (messages : List Msg) (kind err : String)
    (h : messages ≠ []) :
    call_model .offline messages kind =
      .ok (if kind = "practice" then practice_fallback
           else offline_lesson_for (messages.getLast h)) ∧
    call_model (.apiError err) messages kind =
      .ok (if kind = "practice" then practice_fallback else error_lesson_text) := by
  constructor
  · simp only [call_model]
    by_cases hk : kind = "practice"
    · rw [if_pos hk, if_pos hk]
    · rw [if_neg hk, if_neg hk, List.getLast?_eq_getLast messages h]
  · simp only [call_model]
    by_cases hk : kind = "practice"
    · rw [if_pos hk, if_pos hk]
    · rw [if_neg hk, if_neg hk]

/-- Claim C6 witness: the fallbacks on a concrete one-message
conversation, for both failure modes. -/
theorem C6_witness :
    call_model .offline
      [⟨"user", "Subject: Java. Topic: Classes. Level: beginner."⟩] "lesson" =
      .ok (offline_lesson_text "Java" "Classes") ∧
    call_model (.apiError "boom")
      [⟨"user", "Subject: Java. Topic: Classes. Level: beginner."⟩] "lesson" =
      .ok error_lesson_text := by
  have h := C6_fallback_no_error
    [⟨"user", "Subject: Java. Topic: Classes. Level: beginner."⟩] "lesson" "boom" (by simp)
  exact ⟨h.1.trans (by rfl), h.2.trans (by rfl)⟩

/-- Claim C10: the numbering strip removes every leading character in
the set `0-9`, `)`, `.`, space — so it also eats leading digits of the
question text itself. -/
theorem C10_lstrip_overreach :
    format_practice "1) 42 is the answer\n2. 2048 game rules" =
      [⟨"is the answer", "concept", none⟩, ⟨"game rules", "concept", none⟩] ∧
    pyLstrip numbering_chars "1) 42 is the answer".data = "is the answer".data := by decide

/-- Claim C4, counterexample: a `practice` request on a known session
returns with the session store exactly as it was — no new turn is
appended to the transcript after the formatter runs. -/
theorem C4_counterexample :
    practice "f" (.ok "1) Something") [("s", [⟨"user", "hi"⟩])]
      ⟨"Math", "Algebra", "beginner", some "s"⟩ =
      .ok ([("s", [⟨"user", "hi"⟩])],
        ⟨"s", [⟨"Something", "concept", none⟩]⟩) := rfl

/-- Claim C4 as amended: after parsing, `lesson_step` appends a new
assistant turn to the transcript of the resolved session before returning,
but `practice` appends nothing — its store is exactly the store produced
by session resolution. -/
theorem C4_append_behaviour :
    (∀ (fresh : String) (gen : Gen) (store : Store) (req : LessonStepRequest)
        (store' : Store) (resp : LessonStepResponse),
      lesson_step fresh gen store req = .ok (store', resp) →
      ∃ hist response,
        storeFind store' resp.session_id =
          some (hist ++ [⟨"assistant", response⟩])) ∧
    (∀ (fresh : String) (gen : Gen) (store : Store) (req : PracticeRequest)
        (store' : Store) (resp : PracticeResponse),
      practice fresh gen store req = .ok (store', resp) →
      store' = (get_or_create_session fresh store req.session_id).2) := by
  constructor
  · intro fresh gen store req store' resp h
    obtain ⟨response, hsid, hstore⟩ := lesson_step_ok h
    obtain ⟨hist, hfind⟩ := gocs_find fresh store req.session_id
    subst hstore
    refine ⟨hist, response, ?_⟩
    rw [hsid]
    exact storeFind_storeAppend_self _ _ _ _ hfind
  · intro fresh gen store req store' resp h
    exact (practice_ok h).2

/-- Claim C4 witness: both halves instantiated on concrete requests. -/
theorem C4_witness :
    (∃ hist response,
      storeFind [("u1", [⟨"assistant", "Hi\nCheckpoint: C?\nRecap: R."⟩])] "u1" =
        some (hist ++ [⟨"assistant", response⟩])) ∧
    [("u2", [])] = (get_or_create_session "u2" [] none).2 := by
  constructor
  · exact C4_append_behaviour.1 "u1" (.ok "Hi\nCheckpoint: C?\nRecap: R.") []
      ⟨"Java", "Loops", "beginner", none, none, false, none⟩
      [("u1", [⟨"assistant", "Hi\nCheckpoint: C?\nRecap: R."⟩])]
      ⟨"u1", "Hi\n\nCheckpoint: C?\n\nRecap: R.", "Checkpoint: C?", "Recap: R."⟩ rfl
  · exact C4_append_behaviour.2 "u2" (.ok "1) Q") [] ⟨"A", "B", "beginner", none⟩
      [("u2", [])] ⟨"u2", [⟨"Q", "concept", none⟩]⟩ rfl

/-- Claim C8, counterexample: a `practice` request reusing the known
session `"sess"` leaves its transcript identical — there is no newly
appended turn following the prior entries. -/
theorem C8_counterexample :
    practice "g" (.ok "2) Apply it") [("sess", [⟨"assistant", "prev"⟩])]
      ⟨"Sci", "Atoms", "beginner", some "sess"⟩ =
      .ok ([("sess", [⟨"assistant", "prev"⟩])],
        ⟨"sess", [⟨"Apply it", "applied", none⟩]⟩) := rfl

/-- Claim C8 as amended: transcripts are append-only — `lesson_step`
extends every pre-existing history by a (possibly empty) suffix and, on a
known session id, returns that id and appends exactly one assistant turn
after the prior entries; `practice` on a known id returns that id and
leaves the store untouched. -/
theorem C8_append_only :
    (∀ (fresh : String) (gen : Gen) (store : Store) (req : LessonStepRequest)
        (store' : Store) (resp : LessonStepResponse) (k : String) (h : List Msg),
      storeMem store fresh = false →
      lesson_step fresh gen store req = .ok (store', resp) →
      storeFind store k = some h →
      ∃ tail, storeFind store' k = some (h ++ tail)) ∧
    (∀ (fresh : String) (gen : Gen) (store : Store) (req : LessonStepRequest)
        (store' : Store) (resp : LessonStepResponse) (sid : String) (h : List Msg),
      req.session_id = some sid → sid ≠ "" →
      storeFind store sid = some h →
      lesson_step fresh gen store req = .ok (store', resp) →
      resp.session_id = sid ∧
      ∃ response,
        storeFind store' sid = some (h ++ [⟨"assistant", response⟩])) ∧
    (∀ (fresh : String) (gen : Gen) (store : Store) (req : PracticeRequest)
        (store' : Store) (resp : PracticeResponse) (sid : String) (h : List Msg),
      req.session_id = some sid → sid ≠ "" →
      storeFind store sid = some h →
      practice fresh gen store req = .ok (store', resp) →
      resp.session_id = sid ∧ store' = store) := by
  refine ⟨?_, ?_, ?_⟩
  · intro fresh gen store req store' resp k h hfresh hstep hfind
    obtain ⟨response, hsid, hstore⟩ := lesson_step_ok hstep
    subst hstore
    exact storeFind_storeAppend_grows _ _ _ _ _
      (gocs_preserves fresh store req.session_id k h hfresh hfind)
  · intro fresh gen store req store' resp sid h hreq hne hfind hstep
    obtain ⟨response, hsid, hstore⟩ := lesson_step_ok hstep
    rw [hreq, gocs_known fresh store sid (by simp [storeMem, hfind]) hne] at hsid hstore
    simp only at hsid hstore
    refine ⟨hsid, response, ?_⟩
    rw [hstore, hsid]
    exact storeFind_storeAppend_self store sid _ h hfind
  · intro fresh gen store req store' resp sid h hreq hne hfind hstep
    have hp := practice_ok hstep
    rw [hreq, gocs_known fresh store sid (by simp [storeMem, hfind]) hne] at hp
    exact ⟨hp.1, hp.2⟩

/-- Claim C8 witness: the three amended clauses instantiated on concrete
stores and requests. -/
theorem C8_witness :
    (∃ tail,
      storeFind [("sess", [⟨"user", "m"⟩]),
        ("u9", [⟨"assistant", "T\nCheckpoint: C?\nRecap: R."⟩])] "sess" =
        some ([⟨"user", "m"⟩] ++ tail)) ∧
    (("s9" : String) = "s9" ∧
      ∃ response,
        storeFind [("s9", [⟨"user", "u"⟩,
            ⟨"assistant", "T2\nCheckpoint: K?\nRecap: R2."⟩])] "s9" =
          some ([⟨"user", "u"⟩] ++ [⟨"assistant", response⟩])) ∧
    (("p1" : String) = "p1" ∧
      ([("p1", [⟨"user", "q"⟩])] : Store) = [("p1", [⟨"user", "q"⟩])]) := by
  refine ⟨?_, ?_, ?_⟩
  · exact C8_append_only.1 "u9" (.ok "T\nCheckpoint: C?\nRecap: R.")
      [("sess", [⟨"user", "m"⟩])] ⟨"Java", "X", "beginner", none, none, false, none⟩
      [("sess", [⟨"user", "m"⟩]), ("u9", [⟨"assistant", "T\nCheckpoint: C?\nRecap: R."⟩])]
      ⟨"u9", "T\n\nCheckpoint: C?\n\nRecap: R.", "Checkpoint: C?", "Recap: R."⟩
      "sess" [⟨"user", "m"⟩] (by decide) rfl (by decide)
  · exact C8_append_only.2.1 "w" (.ok "T2\nCheckpoint: K?\nRecap: R2.")
      [("s9", [⟨"user", "u"⟩])] ⟨"Py", "Y", "beginner", some "s9", none, false, none⟩
      [("s9", [⟨"user", "u"⟩, ⟨"assistant", "T2\nCheckpoint: K?\nRecap: R2."⟩])]
      ⟨"s9", "T2\n\nCheckpoint: K?\n\nRecap: R2.", "Checkpoint: K?", "Recap: R2."⟩
      "s9" [⟨"user", "u"⟩] rfl (by decide) (by decide) rfl
  · exact C8_append_only.2.2 "z" (.ok "3) Use a scenario")
      [("p1", [⟨"user", "q"⟩])] ⟨"S", "T", "beginner", some "p1"⟩
      [("p1", [⟨"user", "q"⟩])] ⟨"p1", [⟨"Use a scenario", "applied", none⟩]⟩
      "p1" [⟨"user", "q"⟩] rfl (by decide) (by decide) rfl

end AIAgent
